import Mathlib

/-!
Shallow embedding of the query generator in `src/generator/generator.py`, a
small compiler from a nested-list filter expression to a SQL `WHERE` and
`LIMIT` statement, together with theorems checking the claims of the
specification against it.

Modelling conventions:
* The dynamically typed operand values of the source (nested lists of
  strings, ints and bools) become the inductive type `PyVal`.
* The exceptions of the source (`IncorrectFieldFormat`, `FieldDoesNotExist`,
  `OperatorDoesNotExist`, plus the built-in `IndexError` and `TypeError`
  that the source can raise by indexing out of bounds or subscripting a
  non-list) become the sum type `Err`, and each fallible function returns
  `Except Err _`.
* The field table `dict[int, str]` becomes an association list
  `List (Int × String)` queried with `List.lookup` (keys are unique in a
  dict, so lookup of a present key returns its value).
* The `dialect` argument is a plain string in the source, compared against
  the members of a str-valued enum, so it stays a `String` here.
-/

/-- Values the expression trees of the generator are built from: strings,
Python ints, Python bools, and nested lists. -/
inductive PyVal where
  | str : String → PyVal
  | int : Int → PyVal
  | bool : Bool → PyVal
  | list : List PyVal → PyVal

/-- Errors of the source, one constructor per exception it can raise.
`indexError` models the built-in `IndexError` (out-of-bounds `operands[i]`),
`typeError` models subscripting a non-list query value. -/
inductive Err where
  | incorrectFieldFormat
  | fieldDoesNotExist (field_id : Int)
  | operatorDoesNotExist (operator : String)
  | indexError
  | typeError
deriving Repr, DecidableEq

/-- The NULL-sentinel marker of the source, the three-character string nil. -/
def NIL : String := "nil"

/-- Python `str(arg)` for the scalar values that can reach the literal
branch of `_extract_field` (lists never do: the `isinstance(arg, list)`
branch catches them first). Note `str(True)` is the text `True` in
Python. -/
def pyStr : PyVal → String
  | .str s => s
  | .int n => toString n
  | .bool b => if b then "True" else "False"
  | .list _ => ""

/-- `_is_correct_field`: the argument has length two, its head is the tag
string `field` and its second element is an int. (Python would also let a
bool pass the `isinstance` int check; no behaviour checked here depends on
that corner.) -/
def is_correct_field : List PyVal → Bool
  | [.str "field", .int _] => true
  | _ => false

/-- `_operator_to_clause`. -/
def operator_to_clause (operator : String) : Except Err String :=
  if operator = "=" then .ok "IN"
  else if operator = "!=" then .ok "NOT IN"
  else if operator = "is-empty" then .ok "IS NULL"
  else if operator = "not-empty" then .ok "IS NOT NULL"
  else .error (.operatorDoesNotExist operator)

/-- `_surround_clause`. -/
def surround_clause (clause : String) : String :=
  "(" ++ clause ++ ")"

/-- `_surround_identifier`: mysql gets backticks, every other dialect double
quotes. -/
def surround_identifier (name : String) (dialect : String) : String :=
  if dialect = "mysql" then "`" ++ name ++ "`"
  else "\"" ++ name ++ "\""

/-- `_extract_field`: a list operand must be a well-formed field reference
(per `is_correct_field`, inlined here as the match pattern) and resolve
through the field table; any other operand is a literal, rendered via
`str(arg)` and single-quoted when it is a string other than the `nil`
sentinel. -/
def extract_field (arg : PyVal) (fields : List (Int × String)) (dialect : String) :
    Except Err String :=
  match arg with
  | .list l =>
    match l with
    | [.str "field", .int field_id] =>
      match fields.lookup field_id with
      | some name => .ok (surround_identifier name dialect)
      | none => .error (.fieldDoesNotExist field_id)
    | _ => .error .incorrectFieldFormat
  | .str s => .ok (if s = NIL then s else "\x27" ++ s ++ "\x27")
  | other => .ok (pyStr other)

/-- `_build_null_clause`. -/
def build_null_clause (operator : String) (arg : PyVal)
    (fields : List (Int × String)) (dialect : String) : Except Err String := do
  let field ← extract_field arg fields dialect
  let null_clause ← operator_to_clause operator
  return field ++ " " ++ null_clause

/-- `_build_comparison_clause`: extract both operands; when neither renders
as the `nil` sentinel emit the binary comparison, otherwise rewrite to a
null clause on the non-nil argument (`is-empty` for `=`, `not-empty` for
every other operator). -/
def build_comparison_clause (operator : String) (left_arg right_arg : PyVal)
    (fields : List (Int × String)) (dialect : String) : Except Err String := do
  let left ← extract_field left_arg fields dialect
  let right ← extract_field right_arg fields dialect
  if left ≠ NIL ∧ right ≠ NIL then
    return left ++ " " ++ operator ++ " " ++ right
  else
    let not_nil_arg := if left ≠ NIL then left_arg else right_arg
    let new_operator := if operator = "=" then "is-empty" else "not-empty"
    build_null_clause new_operator not_nil_arg fields dialect

/-- `_build_in_clause`: the head operand is the subject, the remaining
operands form the comma-separated value list. An empty `args` list would be
the `args[0]` IndexError of Python. -/
def build_in_clause (operator : String) (args : List PyVal)
    (fields : List (Int × String)) (dialect : String) : Except Err String := do
  let head_field ←
    match args with
    | [] => Except.error Err.indexError
    | a :: _ => extract_field a fields dialect
  let tail_fields ← (args.drop 1).mapM (fun arg => extract_field arg fields dialect)
  let args_clause := surround_clause (String.intercalate ", " tail_fields)
  let in_clause ← operator_to_clause operator
  return head_field ++ " " ++ in_clause ++ " " ++ args_clause

/-- The connective separator of the source: a space, the upper-cased
connective (`and` or `or`), and a space. -/
def connective_separator (op : String) : String :=
  if op = "and" then " AND " else " OR "

mutual

/-- The body of `_build_where_clause` for a non-None query value. The single
recursive function of the source is split into this function and
`build_where_parts` (its `for clause in operands` loop) so the recursion is
a mutual one over `PyVal` and `List PyVal`. Non-list query values take the
`typeError` arm (Python fails to handle them uniformly; no claim exercises
that corner). Note the single-operand arm for `and` and `or`: the source
evaluates `operands[1]` on a one-element operand list, an out-of-bounds
index. A non-string operator falls past every comparison of the dispatch
chain into the `OperatorDoesNotExist` raise, as in the source. -/
def build_where_val (dialect : String) (fields : List (Int × String)) :
    PyVal → Except Err String
  | .list [] => .error .indexError
  | .list (operator :: operands) =>
    match operator with
    | .str op =>
      if op = "and" ∨ op = "or" then
        match operands with
        | [_] => .error .indexError
        | _ => do
          let clause_parts ← build_where_parts dialect fields operands
          let result_clause := String.intercalate (connective_separator op) clause_parts
          return surround_clause result_clause
      else if op = "not" then
        match operands with
        | x :: _ => do
          let c ← build_where_val dialect fields x
          return surround_clause ("NOT " ++ c)
        | [] => .error .indexError
      else if op = "<" ∨ op = ">" then
        match operands with
        | a :: b :: _ => do
          let c ← build_comparison_clause op a b fields dialect
          return surround_clause c
        | _ => .error .indexError
      else if op = "=" ∨ op = "!=" then
        match operands with
        | [a, b] => do
          let c ← build_comparison_clause op a b fields dialect
          return surround_clause c
        | _ => do
          let c ← build_in_clause op operands fields dialect
          return surround_clause c
      else if op = "is-empty" ∨ op = "not-empty" then
        match operands with
        | x :: _ => do
          let c ← build_null_clause op x fields dialect
          return surround_clause c
        | [] => .error .indexError
      else
        .error (.operatorDoesNotExist op)
    | other => .error (.operatorDoesNotExist (pyStr other))
  | _ => .error .typeError

/-- The `for clause in operands` loop of the `and` and `or` branch: compile
each operand in its given order, collecting the clause strings. -/
def build_where_parts (dialect : String) (fields : List (Int × String)) :
    List PyVal → Except Err (List String)
  | [] => .ok []
  | x :: xs => do
    let c ← build_where_val dialect fields x
    let cs ← build_where_parts dialect fields xs
    return c :: cs

end

/-- `_build_where_clause`: a missing (None) query compiles to the empty
string, everything else goes through the recursive body. -/
def build_where_clause (dialect : String) (fields : List (Int × String)) :
    Option PyVal → Except Err String
  | none => .ok ""
  | some q => build_where_val dialect fields q

/-- `_build_limit_clause`. -/
def build_limit_clause (dialect : String) : Option Int → String
  | none => ""
  | some limit =>
    if dialect = "sqlserver" then "TOP(" ++ toString limit ++ ")"
    else "LIMIT " ++ toString limit

/-- The `query: dict` argument of `generate_sql`: its `where` and `limit`
keys, each read with `query.get` and so possibly absent. -/
structure QueryDict where
  qwhere : Option PyVal := none
  qlimit : Option Int := none

/-- The truthiness test `if part.strip()` of the source: true exactly when
the part contains a non-whitespace character. -/
def part_is_kept (part : String) : Bool :=
  part.data.any (fun c => !c.isWhitespace)

/-- `generate_sql`: build the where and limit clauses, prefix a non-empty
where clause with the WHERE keyword, order the statement parts by dialect,
drop the parts that are empty after stripping, join with single spaces and
append a semicolon. -/
def generate_sql (dialect : String) (fields : List (Int × String))
    (query : QueryDict) : Except Err String := do
  let where_clause ← build_where_clause dialect fields query.qwhere
  let limit_clause := build_limit_clause dialect query.qlimit
  let where_clause := if where_clause ≠ "" then "WHERE " ++ where_clause else where_clause
  let query_parts :=
    if dialect = "sqlserver" then ["SELECT", limit_clause, "* FROM data", where_clause]
    else ["SELECT * FROM data", where_clause, limit_clause]
  return String.intercalate " " (query_parts.filter part_is_kept) ++ ";"

/-! Helper lemmas shared by the claim theorems. -/

/-- String concatenation reassociates (used to normalise clause texts). -/
theorem string_append_assoc (a b c : String) : a ++ b ++ c = a ++ (b ++ c) := by
  apply String.ext
  simp [String.data_append]

/-- A quoted identifier is never the three-character sentinel `nil`: both
quoting styles start with a quote character, not with the letter n. -/
theorem surround_identifier_ne_nil (name dialect : String) :
    surround_identifier name dialect ≠ NIL := by
  unfold surround_identifier NIL
  split <;> intro h <;>
    (have hd := congrArg String.data h
     simp [String.data_append] at hd)

/-- Appending anything to a kept part keeps it kept. -/
theorem part_is_kept_append_left (a b : String) (h : part_is_kept a = true) :
    part_is_kept (a ++ b) = true := by
  simp [part_is_kept, String.data_append, List.any_append] at h ⊢
  exact Or.inl h

/-- A where clause prefixed with the WHERE keyword is never stripped away. -/
theorem part_is_kept_where (wc : String) :
    part_is_kept ("WHERE " ++ wc) = true :=
  part_is_kept_append_left "WHERE " wc rfl

/-- A TOP limit clause is never stripped away. -/
theorem part_is_kept_top (t : String) :
    part_is_kept ("TOP(" ++ t) = true :=
  part_is_kept_append_left "TOP(" t rfl

/-- A LIMIT clause is never stripped away. -/
theorem part_is_kept_limit (t : String) :
    part_is_kept ("LIMIT " ++ t) = true :=
  part_is_kept_append_left "LIMIT " t rfl

/-- The empty part is stripped away. -/
theorem part_is_kept_empty : part_is_kept "" = false := rfl

/-- The SELECT keyword part is kept. -/
theorem part_is_kept_select : part_is_kept "SELECT" = true := rfl

/-- The column-list part is kept. -/
theorem part_is_kept_from_data : part_is_kept "* FROM data" = true := rfl

/-- The combined SELECT-FROM part of the non-sqlserver layout is kept. -/
theorem part_is_kept_select_from : part_is_kept "SELECT * FROM data" = true := rfl

/-! The claims. -/

/-- C1: for an `=` or `!=` operation with exactly two operands, if neither
operand resolves to the sentinel `nil` the compiled clause is the
parenthesised comparison of the two resolved operands; if exactly one
operand resolves to the sentinel, the comparison is discarded and the
result is the parenthesised null-check of the other operand: IS NULL for
`=`, IS NOT NULL for `!=`. -/
theorem C1_equality_null_rule (dialect : String) (fields : List (Int × String))
    (op : String) (a b : PyVal) (l r : String)
    (hop : op = "=" ∨ op = "!=")
    (ha : extract_field a fields dialect = .ok l)
    (hb : extract_field b fields dialect = .ok r) :
    (l ≠ NIL ∧ r ≠ NIL →
      build_where_clause dialect fields (some (.list [.str op, a, b]))
        = .ok ("(" ++ l ++ " " ++ op ++ " " ++ r ++ ")")) ∧
    (l = NIL → r ≠ NIL →
      build_where_clause dialect fields (some (.list [.str op, a, b]))
        = .ok ("(" ++ r ++ (if op = "=" then " IS NULL" else " IS NOT NULL") ++ ")")) ∧
    (l ≠ NIL → r = NIL →
      build_where_clause dialect fields (some (.list [.str op, a, b]))
        = .ok ("(" ++ l ++ (if op = "=" then " IS NULL" else " IS NOT NULL") ++ ")")) := by
  rcases hop with rfl | rfl <;>
    refine ⟨fun hnn => ?_, fun hl hr => ?_, fun hl hr => ?_⟩ <;>
    simp [build_where_clause, build_where_val, build_comparison_clause,
      build_null_clause, operator_to_clause, surround_clause,
      ha, hb, Bind.bind, Except.bind] <;>
    first
    | (rw [if_pos hnn]; rfl)
    | (rw [if_neg (by simp [hl, hr])]
       simp [hl, hr, ha, hb, Bind.bind, Except.bind, pure, Except.pure, string_append_assoc]
       try rfl)

/-- Witness for C1 at a concrete input: the example of the test suite plus a
one-sided nil comparison, via `C1_equality_null_rule`. -/
theorem C1_witness :
    build_where_clause "postgres" [(2, "name")]
      (some (.list [.str "=", .list [.str "field", .int 2], .str "cam"]))
      = .ok "(\"name\" = \x27cam\x27)" ∧
    build_where_clause "postgres" [(3, "date_joined")]
      (some (.list [.str "!=", .list [.str "field", .int 3], .str "nil"]))
      = .ok "(\"date_joined\" IS NOT NULL)" := by
  constructor
  · have h := (C1_equality_null_rule "postgres" [(2, "name")] "="
      (.list [.str "field", .int 2]) (.str "cam") "\"name\"" "\x27cam\x27"
      (Or.inl rfl) rfl rfl).1 (by decide)
    simpa using h
  · have h := (C1_equality_null_rule "postgres" [(3, "date_joined")] "!="
      (.list [.str "field", .int 3]) (.str "nil") "\"date_joined\"" "nil"
      (Or.inr rfl) rfl rfl).2.2 (by decide) rfl
    simpa using h

/-- C2 counterexample: the claim says the NULL rewrite is never applied for
`<` and `>`, but compiling `["<", ["field", 4], "nil"]` produces the
rewritten null-check, not the strict comparison. -/
theorem C2_counterexample :
    build_where_clause "postgres" [(4, "age")]
      (some (.list [.str "<", .list [.str "field", .int 4], .str "nil"]))
      = .ok "(\"age\" IS NOT NULL)" ∧
    build_where_clause "postgres" [(4, "age")]
      (some (.list [.str "<", .list [.str "field", .int 4], .str "nil"]))
      ≠ .ok "(\"age\" < nil)" := by
  refine ⟨rfl, fun h => ?_⟩
  rw [show build_where_clause "postgres" [(4, "age")]
      (some (.list [.str "<", .list [.str "field", .int 4], .str "nil"]))
      = .ok "(\"age\" IS NOT NULL)" from rfl] at h
  exact absurd (Except.ok.inj h) (by decide)

/-- C2 (amended): for a `<` or `>` operation with two operands, when neither
operand resolves to the sentinel `nil` the compiled clause is the strict
parenthesised comparison; when one side resolves to the sentinel the NULL
rewrite of `_build_comparison_clause` does apply, and since the operator is
not `=` it always produces the IS NOT NULL form on the other operand. -/
theorem C2_lt_gt_nil_rewrite (dialect : String) (fields : List (Int × String))
    (op : String) (a b : PyVal) (l r : String)
    (hop : op = "<" ∨ op = ">")
    (ha : extract_field a fields dialect = .ok l)
    (hb : extract_field b fields dialect = .ok r) :
    (l ≠ NIL ∧ r ≠ NIL →
      build_where_clause dialect fields (some (.list [.str op, a, b]))
        = .ok ("(" ++ l ++ " " ++ op ++ " " ++ r ++ ")")) ∧
    (l = NIL → r ≠ NIL →
      build_where_clause dialect fields (some (.list [.str op, a, b]))
        = .ok ("(" ++ r ++ " IS NOT NULL" ++ ")")) ∧
    (l ≠ NIL → r = NIL →
      build_where_clause dialect fields (some (.list [.str op, a, b]))
        = .ok ("(" ++ l ++ " IS NOT NULL" ++ ")")) := by
  rcases hop with rfl | rfl <;>
    refine ⟨fun hnn => ?_, fun hl hr => ?_, fun hl hr => ?_⟩ <;>
    simp [build_where_clause, build_where_val, build_comparison_clause,
      build_null_clause, operator_to_clause, surround_clause,
      ha, hb, Bind.bind, Except.bind] <;>
    first
    | (rw [if_pos hnn]; rfl)
    | (rw [if_neg (by simp [hl, hr])]
       simp [hl, hr, ha, hb, Bind.bind, Except.bind, pure, Except.pure, string_append_assoc]
       try rfl)

/-- Witness for C2 at concrete inputs, via `C2_lt_gt_nil_rewrite`: a strict
comparison away from the sentinel, and the rewrite when the right side is
the sentinel. -/
theorem C2_witness :
    build_where_clause "postgres" [(4, "age")]
      (some (.list [.str ">", .list [.str "field", .int 4], .int 25]))
      = .ok "(\"age\" > 25)" ∧
    build_where_clause "postgres" [(4, "age")]
      (some (.list [.str "<", .list [.str "field", .int 4], .str "nil"]))
      = .ok "(\"age\" IS NOT NULL)" := by
  constructor
  · have h := (C2_lt_gt_nil_rewrite "postgres" [(4, "age")] ">"
      (.list [.str "field", .int 4]) (.int 25) "\"age\"" "25"
      (Or.inr rfl) rfl rfl).1 (by decide)
    simpa using h
  · have h := (C2_lt_gt_nil_rewrite "postgres" [(4, "age")] "<"
      (.list [.str "field", .int 4]) (.str "nil") "\"age\"" "nil"
      (Or.inl rfl) rfl rfl).2.2 (by decide) rfl
    simpa using h

/-- C3: compiling an `and` or `or` operation with exactly one operand always
fails with the IndexError of the out-of-bounds `operands[1]` access, for
every dialect, field table, and operand, instead of compiling the sole
operand as the claim (and the comment in the source) states. -/
theorem C3_single_operand_connective_index_error (dialect : String)
    (fields : List (Int × String)) (op : String) (x : PyVal)
    (hop : op = "and" ∨ op = "or") :
    build_where_clause dialect fields (some (.list [.str op, x]))
      = .error .indexError := by
  rcases hop with rfl | rfl <;> rfl

/-- Witness for C3 at the concrete failing input
`["and", ["is-empty", ["field", 1]]]`, via
`C3_single_operand_connective_index_error`. -/
theorem C3_witness :
    build_where_clause "postgres" [(1, "id")]
      (some (.list [.str "and", .list [.str "is-empty", .list [.str "field", .int 1]]]))
      = .error .indexError :=
  C3_single_operand_connective_index_error "postgres" [(1, "id")] "and"
    (.list [.str "is-empty", .list [.str "field", .int 1]]) (Or.inl rfl)

/-- C4: for an `=` or `!=` operation with three or more operands, the first
operand resolves as the subject, the remaining operands resolve
independently in their given order, and the result is the parenthesised
IN (respectively NOT IN) membership clause over the comma-separated
values. -/
theorem C4_membership_rule (dialect : String) (fields : List (Int × String))
    (op : String) (x0 y1 y2 : PyVal) (rest : List PyVal) (s0 : String) (ss : List String)
    (hop : op = "=" ∨ op = "!=")
    (h0 : extract_field x0 fields dialect = .ok s0)
    (hs : (y1 :: y2 :: rest).mapM (fun arg => extract_field arg fields dialect) = .ok ss) :
    build_where_clause dialect fields (some (.list (.str op :: x0 :: y1 :: y2 :: rest)))
      = .ok ("(" ++ s0 ++ (if op = "=" then " IN (" else " NOT IN (")
          ++ String.intercalate ", " ss ++ "))") := by
  simp only [List.mapM] at hs
  rcases hop with rfl | rfl <;>
    simp [build_where_clause, build_where_val, build_in_clause,
      operator_to_clause, surround_clause, h0, hs, Bind.bind, Except.bind,
      pure, Except.pure, string_append_assoc] <;>
    try rfl

/-- Witness for C4 at the concrete input `["=", ["field", 4], 25, 26, 27]`
of the test suite, via `C4_membership_rule`. -/
theorem C4_witness :
    build_where_clause "postgres" [(4, "age")]
      (some (.list [.str "=", .list [.str "field", .int 4], .int 25, .int 26, .int 27]))
      = .ok "(\"age\" IN (25, 26, 27))" := by
  have h := C4_membership_rule "postgres" [(4, "age")] "="
    (.list [.str "field", .int 4]) (.int 25) (.int 26) [.int 27]
    "\"age\"" ["25", "26", "27"] (Or.inl rfl) rfl rfl
  simpa using h

/-- C5: comparing a valid field reference with the sentinel `nil` under `=`
compiles to exactly the same output as `is-empty` on that field, and under
`!=` to exactly the same output as `not-empty`, for every dialect and field
table containing the field. -/
theorem C5_nil_comparison_equals_null_check (dialect : String)
    (fields : List (Int × String)) (id : Int) (name : String)
    (h : fields.lookup id = some name) :
    build_where_clause dialect fields
        (some (.list [.str "=", .list [.str "field", .int id], .str NIL]))
      = build_where_clause dialect fields
        (some (.list [.str "is-empty", .list [.str "field", .int id]])) ∧
    build_where_clause dialect fields
        (some (.list [.str "!=", .list [.str "field", .int id], .str NIL]))
      = build_where_clause dialect fields
        (some (.list [.str "not-empty", .list [.str "field", .int id]])) := by
  have hne : surround_identifier name dialect ≠ "nil" :=
    surround_identifier_ne_nil name dialect
  constructor <;>
    simp [build_where_clause, build_where_val, build_comparison_clause,
      build_null_clause, operator_to_clause, extract_field, h, hne,
      surround_clause, Bind.bind, Except.bind, pure, Except.pure, NIL]

/-- Witness for C5 at a concrete field table, via
`C5_nil_comparison_equals_null_check`. -/
theorem C5_witness :
    build_where_clause "postgres" [(3, "date_joined")]
        (some (.list [.str "=", .list [.str "field", .int 3], .str NIL]))
      = build_where_clause "postgres" [(3, "date_joined")]
        (some (.list [.str "is-empty", .list [.str "field", .int 3]])) ∧
    build_where_clause "postgres" [(3, "date_joined")]
        (some (.list [.str "!=", .list [.str "field", .int 3], .str NIL]))
      = build_where_clause "postgres" [(3, "date_joined")]
        (some (.list [.str "not-empty", .list [.str "field", .int 3]])) :=
  C5_nil_comparison_equals_null_check "postgres" [(3, "date_joined")] 3
    "date_joined" rfl

/-- C6: every string literal other than the sentinel is rendered wrapped in
single quotes with its text passing through verbatim (no escaping of
embedded quote characters), while the sentinel renders as the bare token
nil. -/
theorem C6_string_literal_quoting (fields : List (Int × String))
    (dialect : String) (s : String) (hs : s ≠ NIL) :
    extract_field (.str s) fields dialect = .ok ("\x27" ++ s ++ "\x27") ∧
    extract_field (.str NIL) fields dialect = .ok "nil" := by
  simp only [NIL] at hs
  exact ⟨by simp [extract_field, NIL, hs], rfl⟩

/-- Witness for C6 at a literal containing an embedded single quote, via
`C6_string_literal_quoting`: the quote character passes through
unescaped. -/
theorem C6_witness :
    extract_field (.str "O\x27Brien") [] "postgres" = .ok "\x27O\x27Brien\x27" ∧
    extract_field (.str "nil") [] "postgres" = .ok "nil" :=
  C6_string_literal_quoting [] "postgres" "O\x27Brien" (by decide)

/-- C7: resolving a field reference whose ID is absent from the field table
fails with `fieldDoesNotExist`, an operator outside the recognised grammar
fails with `operatorDoesNotExist`, and in both cases `generate_sql` returns
that error and no output string. -/
theorem C7_error_propagation (dialect : String) (fields : List (Int × String))
    (id : Int) (op : String) (args : List PyVal) (lim : Option Int)
    (hid : fields.lookup id = none)
    (hop : op ∉ ["and", "or", "not", "<", ">", "=", "!=", "is-empty", "not-empty"]) :
    build_where_clause dialect fields
        (some (.list [.str "is-empty", .list [.str "field", .int id]]))
      = .error (.fieldDoesNotExist id) ∧
    generate_sql dialect fields
        ⟨some (.list [.str "is-empty", .list [.str "field", .int id]]), lim⟩
      = .error (.fieldDoesNotExist id) ∧
    build_where_clause dialect fields (some (.list (.str op :: args)))
      = .error (.operatorDoesNotExist op) ∧
    generate_sql dialect fields ⟨some (.list (.str op :: args)), lim⟩
      = .error (.operatorDoesNotExist op) := by
  simp only [List.mem_cons, List.not_mem_nil, or_false, not_or] at hop
  obtain ⟨h1, h2, h3, h4, h5, h6, h7, h8, h9⟩ := hop
  have hval : build_where_val dialect fields (.list (.str op :: args))
      = .error (.operatorDoesNotExist op) := by
    rw [build_where_val.eq_def]
    simp [h1, h2, h3, h4, h5, h6, h7, h8, h9]
  refine ⟨?_, ?_, hval, ?_⟩ <;>
    simp [generate_sql, build_where_clause, build_where_val, build_null_clause,
      extract_field, hid, hval,
      Bind.bind, Except.bind, pure, Except.pure]

/-- Witness for C7 at the unknown field ID 99 and the unrecognised operator
`like`, via `C7_error_propagation`. -/
theorem C7_witness :
    build_where_clause "postgres" [(1, "id")]
        (some (.list [.str "is-empty", .list [.str "field", .int 99]]))
      = .error (.fieldDoesNotExist 99) ∧
    generate_sql "postgres" [(1, "id")]
        ⟨some (.list [.str "is-empty", .list [.str "field", .int 99]]), none⟩
      = .error (.fieldDoesNotExist 99) ∧
    build_where_clause "postgres" [(1, "id")]
        (some (.list [.str "like", .list [.str "field", .int 1]]))
      = .error (.operatorDoesNotExist "like") ∧
    generate_sql "postgres" [(1, "id")]
        ⟨some (.list [.str "like", .list [.str "field", .int 1]]), none⟩
      = .error (.operatorDoesNotExist "like") :=
  C7_error_propagation "postgres" [(1, "id")] 99 "like"
    [.list [.str "field", .int 1]] none rfl (by decide)

/-- C8: with a present non-negative limit n, sqlserver renders TOP(n)
immediately after SELECT and before the column list, while mysql and
postgres append a trailing LIMIT n after the WHERE clause; with an absent
limit no limit text appears for any of the three dialects. -/
theorem C8_limit_rendering (fields : List (Int × String)) (q : Option PyVal)
    (n : Int) (wcS wcM wcP : String) (hn : 0 ≤ n)
    (hS : build_where_clause "sqlserver" fields q = .ok wcS)
    (hM : build_where_clause "mysql" fields q = .ok wcM)
    (hP : build_where_clause "postgres" fields q = .ok wcP) :
    (generate_sql "sqlserver" fields ⟨q, some n⟩
      = .ok ("SELECT TOP(" ++ toString n ++ ") * FROM data"
          ++ (if wcS = "" then "" else " WHERE " ++ wcS) ++ ";")) ∧
    (generate_sql "mysql" fields ⟨q, some n⟩
      = .ok ("SELECT * FROM data"
          ++ (if wcM = "" then "" else " WHERE " ++ wcM)
          ++ " LIMIT " ++ toString n ++ ";")) ∧
    (generate_sql "postgres" fields ⟨q, some n⟩
      = .ok ("SELECT * FROM data"
          ++ (if wcP = "" then "" else " WHERE " ++ wcP)
          ++ " LIMIT " ++ toString n ++ ";")) ∧
    (generate_sql "sqlserver" fields ⟨q, none⟩
      = .ok ("SELECT * FROM data"
          ++ (if wcS = "" then "" else " WHERE " ++ wcS) ++ ";")) ∧
    (generate_sql "mysql" fields ⟨q, none⟩
      = .ok ("SELECT * FROM data"
          ++ (if wcM = "" then "" else " WHERE " ++ wcM) ++ ";")) ∧
    (generate_sql "postgres" fields ⟨q, none⟩
      = .ok ("SELECT * FROM data"
          ++ (if wcP = "" then "" else " WHERE " ++ wcP) ++ ";")) := by
  by_cases hwS : wcS = "" <;> by_cases hwM : wcM = "" <;> by_cases hwP : wcP = "" <;>
  refine ⟨?_, ?_, ?_, ?_, ?_, ?_⟩ <;>
  simp [generate_sql, build_limit_clause, hS, hM, hP, hwS, hwM, hwP,
    Bind.bind, Except.bind, pure, Except.pure,
    part_is_kept_where, part_is_kept_top, part_is_kept_limit,
    part_is_kept_empty, part_is_kept_select, part_is_kept_from_data,
    part_is_kept_select_from,
    List.filter, String.intercalate, String.intercalate.go,
    string_append_assoc] <;>
  try rfl

/-- Witness for C8 at the queries of the test suite (limit 10, dialects
mysql and sqlserver, where clause present and absent), via
`C8_limit_rendering`. -/
theorem C8_witness :
    generate_sql "mysql" [(2, "name")]
        ⟨some (.list [.str "=", .list [.str "field", .int 2], .str "cam"]), some 10⟩
      = .ok "SELECT * FROM data WHERE (`name` = \x27cam\x27) LIMIT 10;" ∧
    generate_sql "sqlserver" [(2, "name")]
        ⟨some (.list [.str "=", .list [.str "field", .int 2], .str "cam"]), some 10⟩
      = .ok "SELECT TOP(10) * FROM data WHERE (\"name\" = \x27cam\x27);" ∧
    generate_sql "postgres" [(2, "name")]
        ⟨some (.list [.str "=", .list [.str "field", .int 2], .str "cam"]), none⟩
      = .ok "SELECT * FROM data WHERE (\"name\" = \x27cam\x27);" := by
  have h := C8_limit_rendering [(2, "name")]
    (some (.list [.str "=", .list [.str "field", .int 2], .str "cam"])) 10
    "(\"name\" = \x27cam\x27)" "(`name` = \x27cam\x27)" "(\"name\" = \x27cam\x27)"
    (by decide) rfl rfl rfl
  exact ⟨by simpa using h.2.1, by simpa using h.1, by simpa using h.2.2.2.2.2⟩

/-- C9: an `=` or `!=` operation with exactly one operand does not raise an
arity error; it is dispatched to the membership branch and compiles to the
resolved operand followed by IN (respectively NOT IN) and an empty
parenthesised value list. -/
theorem C9_single_operand_membership (dialect : String)
    (fields : List (Int × String)) (op : String) (x : PyVal) (s : String)
    (hop : op = "=" ∨ op = "!=")
    (hx : extract_field x fields dialect = .ok s) :
    build_where_clause dialect fields (some (.list [.str op, x]))
      = .ok ("(" ++ s ++ (if op = "=" then " IN " else " NOT IN ") ++ "()" ++ ")") := by
  rcases hop with rfl | rfl <;>
    simp [build_where_clause, build_where_val, build_in_clause,
      operator_to_clause, surround_clause, hx, Bind.bind, Except.bind,
      pure, Except.pure, string_append_assoc, List.mapM, List.mapM.loop] <;>
    try rfl

/-- Witness for C9 at the concrete input `["=", ["field", 4]]`, via
`C9_single_operand_membership`. -/
theorem C9_witness :
    build_where_clause "postgres" [(4, "age")]
      (some (.list [.str "=", .list [.str "field", .int 4]]))
      = .ok "(\"age\" IN ())" := by
  have h := C9_single_operand_membership "postgres" [(4, "age")] "="
    (.list [.str "field", .int 4]) "\"age\"" (Or.inl rfl) rfl
  simpa using h

/-- C10: for the fixed-arity operators `not`, `is-empty`, `not-empty`
(arity 1) and `<`, `>` (arity 2), extra operands beyond the declared arity
are silently ignored: the compiled result is identical to the result
without the extras, for every dialect, field table, and operands. -/
theorem C10_extra_operands_ignored (dialect : String) (fields : List (Int × String)) :
    (∀ (x : PyVal) (extras : List PyVal),
      build_where_clause dialect fields (some (.list (.str "not" :: x :: extras)))
        = build_where_clause dialect fields (some (.list [.str "not", x]))) ∧
    (∀ (x : PyVal) (extras : List PyVal),
      build_where_clause dialect fields (some (.list (.str "is-empty" :: x :: extras)))
        = build_where_clause dialect fields (some (.list [.str "is-empty", x]))) ∧
    (∀ (x : PyVal) (extras : List PyVal),
      build_where_clause dialect fields (some (.list (.str "not-empty" :: x :: extras)))
        = build_where_clause dialect fields (some (.list [.str "not-empty", x]))) ∧
    (∀ (a b : PyVal) (extras : List PyVal),
      build_where_clause dialect fields (some (.list (.str "<" :: a :: b :: extras)))
        = build_where_clause dialect fields (some (.list [.str "<", a, b]))) ∧
    (∀ (a b : PyVal) (extras : List PyVal),
      build_where_clause dialect fields (some (.list (.str ">" :: a :: b :: extras)))
        = build_where_clause dialect fields (some (.list [.str ">", a, b]))) := by
  refine ⟨fun x extras => ?_, fun x extras => ?_, fun x extras => ?_,
    fun a b extras => ?_, fun a b extras => ?_⟩ <;>
    cases extras <;> rfl
